import Mathlib

/-!
Shallow embedding of `juit-vue-modal` (src/src/plugin.ts, with the older
variant in src/unnamed/part_000 noted where it differs).

Modelling choices:
* Component references and props are opaque (`Nat` / `Option Nat`): the
  plugin stores them untouched and only hands them back to the renderer.
* The module state (the reactive `stack` array of the mounted
  `ModalStackComponent`, the module-level `entries` record, and the
  module-level `modalStack` reference) is gathered in one structure `St`.
* JavaScript promises are modelled explicitly: `createModal` allocates a
  slot in `St.promises`; `resolve` / `reject` on an already settled
  promise is a no-op (`settle`), exactly as in JS promise semantics.
* `warn(...)` appends the message to `St.warnings`; `this.$emit(name, b)`
  appends `(name, b)` to `St.events`.
* VNode identity (needed to talk about "the identical cached node") is
  modelled by a serial number drawn from `St.vnodeCounter` at construction
  time, together with the modal id baked into the wrapping DIV.
* The registry `entries` is a `Record<string, ModalEntry>`: an association
  list with JS object semantics (`entries[id] = v` replaces in place or
  appends, `delete entries[id]` removes the key).
-/

/-- A JS promise slot: pending, resolved with a value, or rejected with an
error message. Settling an already settled promise is a no-op. -/
inductive PromiseState where
  | pending
  | resolved (v : String)
  | rejected (msg : String)
deriving DecidableEq, Repr

/-- A rendered node, identified by the serial number handed out at
construction time and the modal id of its wrapping DIV
(`h('div', { [dataModalId]: '' }, componentVNode)` in the source). Two nodes
are "the identical object" exactly when their serials agree. -/
structure VNodeM where
  serial : Nat
  modalId : String
deriving DecidableEq, Repr

/-- `ModalEntry` from plugin.ts: component reference, props, the `resolve`
function of the promise returned by `createModal` (here: the index of that
promise), and the lazily cached vnode. -/
structure ModalEntry where
  component : Nat
  props : Option Nat
  resolve : Nat
  vnode : Option VNodeM
deriving DecidableEq, Repr

/-- The whole module-level state of plugin.ts. -/
structure St where
  /-- `this.stack` of the mounted `ModalStackComponent`. -/
  stack : List String
  /-- the module-level `entries : Record<string, ModalEntry>`. -/
  entries : List (String × ModalEntry)
  /-- the module-level `modalStack` reference (mounted instance id). -/
  modalStack : Option Nat
  /-- the promises handed out by `createModal`, indexed by allocation order. -/
  promises : List PromiseState
  /-- messages passed to Vue's `warn`. -/
  warnings : List String
  /-- events emitted via `this.$emit(name, bool)`. -/
  events : List (String × Bool)
  /-- next fresh vnode serial. -/
  vnodeCounter : Nat
deriving DecidableEq, Repr

/-- The empty module state: nothing mounted, no modals. -/
def initSt : St :=
  { stack := [], entries := [], modalStack := none, promises := [],
    warnings := [], events := [], vnodeCounter := 0 }

/- ===== Record<string, ·> (JS object) operations ===== -/

/-- `entries[id]` (read). -/
def getKey : List (String × ModalEntry) → String → Option ModalEntry
  | [], _ => none
  | (k, v) :: rest, id => if k = id then some v else getKey rest id

/-- `entries[id] = e`: replace in place when the key exists, append otherwise. -/
def setKey : List (String × ModalEntry) → String → ModalEntry → List (String × ModalEntry)
  | [], id, e => [(id, e)]
  | (k, v) :: rest, id, e =>
      if k = id then (k, e) :: rest else (k, v) :: setKey rest id e

/-- `delete entries[id]`. -/
def delKey : List (String × ModalEntry) → String → List (String × ModalEntry)
  | [], _ => []
  | (k, v) :: rest, id => if k = id then rest else (k, v) :: delKey rest id

/- ===== array / promise helpers ===== -/

/-- `stack.indexOf(id)` followed by `stack.splice(index, 1)` guarded by
`index >= 0`: remove the first occurrence of `id`, no-op when absent. -/
def removeFirst : List String → String → List String
  | [], _ => []
  | x :: xs, id => if x = id then xs else x :: removeFirst xs id

/-- Read promise slot `i`. -/
def getIdx : List PromiseState → Nat → Option PromiseState
  | [], _ => none
  | p :: _, 0 => some p
  | _ :: rest, i + 1 => getIdx rest i

/-- Call `resolve` / `reject` on promise slot `i`: settles it when pending,
no-op otherwise (JS promise semantics: a promise settles at most once). -/
def settle : List PromiseState → Nat → PromiseState → List PromiseState
  | [], _, _ => []
  | p :: rest, 0, v => (match p with | .pending => v | q => q) :: rest
  | p :: rest, i + 1, v => p :: settle rest i v

/- ===== identifier generation ===== -/

/-- Hex digit character, lowercase, as produced by `Number.toString(16)`.
Only applied to values below 16; the catch-all keeps it total. -/
def hexChar : Nat → Char
  | 0 => '0' | 1 => '1' | 2 => '2' | 3 => '3'
  | 4 => '4' | 5 => '5' | 6 => '6' | 7 => '7'
  | 8 => '8' | 9 => '9' | 10 => 'a' | 11 => 'b'
  | 12 => 'c' | 13 => 'd' | 14 => 'e' | _ => 'f'

/-- Fuel-driven base-16 digit expansion, most significant digit first,
matching `n.toString(16)` for a non-negative integer (the fuel `n + 1`
always suffices since `n / 16 < n` for `n ≥ 16`). -/
def hexDigitsAux : Nat → Nat → List Char
  | 0, _ => []
  | fuel + 1, n =>
      if n < 16 then [hexChar n]
      else hexDigitsAux fuel (n / 16) ++ [hexChar (n % 16)]

/-- `n.toString(16)` as a list of characters. -/
def hexDigits (n : Nat) : List Char := hexDigitsAux (n + 1) n

/-- `'0'.repeat(len - l.length)` prepended: JS `padStart(len, '0')`. -/
def padLeft (len : Nat) (c : Char) (l : List Char) : List Char :=
  List.replicate (len - l.length) c ++ l

/-- The characters of the id generated by `createModal` from a draw `n` of
the pseudo-random source (`Math.floor(Math.random() * MAX_SAFE_INTEGER)`,
so any `n < 2 ^ 53 - 1`): `n.toString(16).substr(0, 8).padStart(8, '0')`. -/
def genIdChars (n : Nat) : List Char := padLeft 8 '0' ((hexDigits n).take 8)

/-- The id generated by `createModal` from the random draw `n`. -/
def genId (n : Nat) : String := String.mk (genIdChars n)

/-- A lowercase hexadecimal digit: in the range `0`-`9` or `a`-`f`. -/
def isHexChar (c : Char) : Bool :=
  (decide ('0' ≤ c) && decide (c ≤ '9')) || (decide ('a' ≤ c) && decide (c ≤ 'f'))

/- ===== the operations of plugin.ts ===== -/

/-- The `hasModals` computed property: `this.stack.length > 0`. -/
def hasModals (stack : List String) : Bool := decide (stack.length > 0)

/-- `createModal(component, props)` with the pseudo-random source drawing
`rnd`. Returns the new state and the index of the freshly allocated promise.
Faithful to plugin.ts lines 145-163: when no `modalStack` is mounted it
warns and rejects, but (there being no early return) still stores the entry
in `entries`; the push `modalStack?.stack.push(id)` only happens when a
stack is mounted. -/
def createModal (s : St) (comp : Nat) (props : Option Nat) (rnd : Nat) :
    St × Nat :=
  let pid := s.promises.length
  let ps0 := s.promises ++ [PromiseState.pending]
  let noStack := s.modalStack.isNone
  let ws := if noStack
    then s.warnings ++ ["No ModalStack component mounted in current render tree"]
    else s.warnings
  let ps1 := if noStack
    then settle ps0 pid (.rejected "No ModalStack avaible")
    else ps0
  let id := genId rnd
  let es := setKey s.entries id ⟨comp, props, pid, none⟩
  let st := match s.modalStack with
    | some _ => s.stack ++ [id]
    | none => s.stack
  ({ s with promises := ps1, warnings := ws, entries := es, stack := st }, pid)

/-- The `onDismissModal` closure created in `render` for modal `id`, whose
captured `entry.resolve` is promise slot `pid`: remove the first occurrence
of `id` from the stack, delete the registry entry, resolve the promise with
`result`, then emit `modalCreated` and `modals` carrying `hasModals`
(plugin.ts lines 113-122; the names really are these — see the emit-name
theorems below). -/
def onDismissModal (s : St) (id : String) (pid : Nat) (result : String) : St :=
  let st := removeFirst s.stack id
  let es := delKey s.entries id
  let ps := settle s.promises pid (.resolved result)
  let hm := hasModals st
  { s with stack := st, entries := es, promises := ps,
           events := s.events ++ [("modalCreated", hm), ("modals", hm)] }

/-- One step of `render` for a single id on the stack (plugin.ts lines
104-137): look the entry up; if a vnode was cached, return it unchanged;
otherwise emit `modalDismissed` and `modals`, build the wrapping DIV node
(a fresh serial), and cache it on the entry. Returns `none` when the id has
no entry (the source would crash dereferencing `undefined`). -/
def renderOne (s : St) (id : String) : Option (VNodeM × St) :=
  match getKey s.entries id with
  | none => none
  | some e =>
    match e.vnode with
    | some v => some (v, s)
    | none =>
        let hm := hasModals s.stack
        let v : VNodeM := ⟨s.vnodeCounter, id⟩
        some (v, { s with
          vnodeCounter := s.vnodeCounter + 1,
          entries := setKey s.entries id { e with vnode := some v },
          events := s.events ++ [("modalDismissed", hm), ("modals", hm)] })

/-- The `mounted` lifecycle hook of `ModalStackComponent` for instance
`inst`: if a stack is already registered, warn (first mount wins);
otherwise register this instance. The hook contains no throwing construct,
so it is a total function on states. -/
def mountedHook (s : St) (inst : Nat) : St :=
  match s.modalStack with
  | some _ =>
      { s with warnings :=
          s.warnings ++ ["Vue modal stack component mounted multiple times"] }
  | none => { s with modalStack := some inst }

/-- The `beforeUnmount` hook for instance `inst`: clear the module-level
reference only if this very instance is the registered one. -/
def beforeUnmountHook (s : St) (inst : Nat) : St :=
  if s.modalStack = some inst then { s with modalStack := none } else s

/- ===== operation sequences ===== -/

/-- The operations a client can drive the module with: a `createModal` call
(with the value drawn by the pseudo-random source) or a dismissal signal
from a rendered modal (carrying the id and the captured promise slot). -/
inductive Op where
  | create (comp rnd : Nat)
  | dismiss (id : String) (pid : Nat) (result : String)

/-- Run one operation. -/
def step (s : St) (op : Op) : St :=
  match op with
  | .create comp rnd => (createModal s comp none rnd).1
  | .dismiss id pid r => onDismissModal s id pid r

/-- Run a sequence of operations. -/
def run : St → List Op → St
  | s, [] => s
  | s, op :: ops => run (step s op) ops

/-- A well-behaved operation: a create happens while a controller is
mounted and the generated identifier is fresh (the uniqueness invariant the
spec states for identifiers); dismissals are unrestricted. -/
def GoodOp (s : St) : Op → Prop
  | .create _ rnd => s.modalStack.isSome = true ∧ getKey s.entries (genId rnd) = none
  | .dismiss _ _ _ => True

/-- A sequence of operations each well-behaved in the state it runs in. -/
inductive GoodTrace : St → List Op → Prop where
  | nil {s : St} : GoodTrace s []
  | cons {s : St} {op : Op} {ops : List Op} :
      GoodOp s op → GoodTrace (step s op) ops → GoodTrace s (op :: ops)

/- ===== helper lemmas ===== -/

theorem hexChar_hex (n : Nat) : isHexChar (hexChar n) = true := by
  match n with
  | 0 | 1 | 2 | 3 | 4 | 5 | 6 | 7 | 8 | 9 | 10 | 11 | 12 | 13 | 14 => rfl
  | n + 15 => rfl

theorem hexDigitsAux_all_hex (fuel n : Nat) :
    (hexDigitsAux fuel n).all isHexChar = true := by
  induction fuel generalizing n with
  | zero => rfl
  | succ fuel ih =>
      unfold hexDigitsAux
      split
      · simp [hexChar_hex]
      · simp [List.all_append, ih, hexChar_hex]

theorem genIdChars_length (n : Nat) : (genIdChars n).length = 8 := by
  have h : ((hexDigits n).take 8).length ≤ 8 := by
    rw [List.length_take]; omega
  unfold genIdChars padLeft
  rw [List.length_append, List.length_replicate]
  omega

theorem genIdChars_all_hex (n : Nat) : (genIdChars n).all isHexChar = true := by
  unfold genIdChars padLeft
  rw [List.all_append, Bool.and_eq_true]
  constructor
  · rw [List.all_eq_true]
    intro c hc
    rw [List.eq_of_mem_replicate hc]
    rfl
  · have h := hexDigitsAux_all_hex (n + 1) n
    rw [List.all_eq_true] at h ⊢
    intro c hc
    exact h c (List.mem_of_mem_take hc)

theorem genId_length (n : Nat) : (genId n).length = 8 := by
  show (genIdChars n).length = 8
  exact genIdChars_length n

theorem getKey_setKey_self (es : List (String × ModalEntry)) (id : String) (e : ModalEntry) :
    getKey (setKey es id e) id = some e := by
  induction es with
  | nil => simp [setKey, getKey]
  | cons kv rest ih =>
      obtain ⟨k, v⟩ := kv
      by_cases hk : k = id
      · simp [setKey, getKey, hk]
      · simp [setKey, getKey, hk, ih]

theorem setKey_of_getKey_none (es : List (String × ModalEntry)) (id : String) (e : ModalEntry)
    (h : getKey es id = none) : setKey es id e = es ++ [(id, e)] := by
  induction es with
  | nil => rfl
  | cons kv rest ih =>
      obtain ⟨k, v⟩ := kv
      by_cases hk : k = id
      · simp [getKey, hk] at h
      · simp [getKey, hk] at h
        simp [setKey, hk, ih h]

theorem getKey_of_not_mem (es : List (String × ModalEntry)) (id : String)
    (h : id ∉ es.map Prod.fst) : getKey es id = none := by
  induction es with
  | nil => rfl
  | cons kv rest ih =>
      obtain ⟨k, v⟩ := kv
      rw [List.map_cons, List.mem_cons] at h
      push_neg at h
      have hk : ¬ k = id := fun he => h.1 he.symm
      simp only [getKey, if_neg hk]
      exact ih h.2

theorem delKey_map_fst (es : List (String × ModalEntry)) (id : String) :
    (delKey es id).map Prod.fst = removeFirst (es.map Prod.fst) id := by
  induction es with
  | nil => rfl
  | cons kv rest ih =>
      obtain ⟨k, v⟩ := kv
      by_cases hk : k = id
      · simp [delKey, removeFirst, hk]
      · simp [delKey, removeFirst, hk, ih]

theorem removeFirst_not_mem (l : List String) (id : String) (h : l.count id ≤ 1) :
    id ∉ removeFirst l id := by
  induction l with
  | nil => simp [removeFirst]
  | cons x xs ih =>
      by_cases hx : x = id
      · subst hx
        rw [List.count_cons_self] at h
        have hz : xs.count x = 0 := by omega
        simp [removeFirst]
        exact List.count_eq_zero.mp hz
      · rw [List.count_cons_of_ne (fun he => hx he.symm)] at h
        simp [removeFirst, hx, List.mem_cons]
        exact ⟨fun he => hx he.symm, ih h⟩

theorem getKey_delKey_of_count (es : List (String × ModalEntry)) (id : String)
    (h : (es.map Prod.fst).count id ≤ 1) :
    getKey (delKey es id) id = none := by
  induction es with
  | nil => rfl
  | cons kv rest ih =>
      obtain ⟨k, v⟩ := kv
      by_cases hk : k = id
      · subst hk
        rw [List.map_cons, List.count_cons_self] at h
        have hz : (rest.map Prod.fst).count k = 0 := by omega
        simp [delKey]
        exact getKey_of_not_mem _ _ (List.count_eq_zero.mp hz)
      · rw [List.map_cons, List.count_cons_of_ne (fun he => hk he.symm)] at h
        simp [delKey, getKey, hk, ih h]

theorem getIdx_append_length (ps : List PromiseState) (v : PromiseState) :
    getIdx (ps ++ [v]) ps.length = some v := by
  induction ps with
  | nil => rfl
  | cons p rest ih => simpa [getIdx] using ih

theorem settle_getIdx_pending (ps : List PromiseState) (i : Nat) (v : PromiseState)
    (h : getIdx ps i = some .pending) : getIdx (settle ps i v) i = some v := by
  induction ps generalizing i with
  | nil => simp [getIdx] at h
  | cons p rest ih =>
      cases i with
      | zero =>
          simp [getIdx] at h
          simp [settle, getIdx, h]
      | succ i =>
          simp only [getIdx] at h
          simpa [settle, getIdx] using ih i h

theorem settle_of_resolved (ps : List PromiseState) (i : Nat) (r : String) (v : PromiseState)
    (h : getIdx ps i = some (.resolved r)) : settle ps i v = ps := by
  induction ps generalizing i with
  | nil => rfl
  | cons p rest ih =>
      cases i with
      | zero =>
          simp [getIdx] at h
          simp [settle, h]
      | succ i =>
          simp only [getIdx] at h
          simp [settle, ih i h]

theorem createModal_rejects_unmounted (s : St) (comp : Nat) (props : Option Nat) (rnd : Nat)
    (h : s.modalStack = none) :
    getIdx (createModal s comp props rnd).1.promises (createModal s comp props rnd).2
      = some (.rejected "No ModalStack avaible") := by
  simp only [createModal, h, Option.isNone_none, if_pos]
  exact settle_getIdx_pending _ _ _ (getIdx_append_length s.promises .pending)

theorem createModal_mounted_stack (s : St) (comp : Nat) (props : Option Nat) (rnd : Nat)
    (j : Nat) (h : s.modalStack = some j) :
    (createModal s comp props rnd).1.stack = s.stack ++ [genId rnd] := by
  simp [createModal, h]

theorem step_preserves_inv (s : St) (op : Op)
    (hinv : s.stack = s.entries.map Prod.fst) (hop : GoodOp s op) :
    (step s op).stack = (step s op).entries.map Prod.fst := by
  cases op with
  | create comp rnd =>
      obtain ⟨hm, hfresh⟩ := hop
      obtain ⟨j, hj⟩ := Option.isSome_iff_exists.mp hm
      simp only [step]
      simp [createModal, hj, setKey_of_getKey_none _ _ _ hfresh, hinv]
  | dismiss id pid r =>
      simp only [step, onDismissModal]
      simp [delKey_map_fst, hinv]

theorem run_preserves_inv (s : St) (ops : List Op) (hg : GoodTrace s ops)
    (hinv : s.stack = s.entries.map Prod.fst) :
    (run s ops).stack = (run s ops).entries.map Prod.fst := by
  induction hg with
  | nil => exact hinv
  | cons hop htail ih => exact ih (step_preserves_inv _ _ hinv hop)

/-- Claim C1 (settled as a code bug): calling `createModal` while no
controller (`ModalStack`) is mounted does warn and reject the returned
promise without touching the stack, but — the `reject` not being followed
by a `return` — the registry of entries is still mutated: the call stores a
fresh entry whose `resolve` can never fire. The claim's "neither the stack
nor the registry is mutated" is therefore violated by the code, on every
such call. This theorem evaluates the model at the failing input
(`createModal` on the empty, unmounted state). -/
theorem createModal_unmounted_rejects_and_leaks :
    getIdx (createModal initSt 7 none 0).1.promises (createModal initSt 7 none 0).2
        = some (.rejected "No ModalStack avaible") ∧
    (createModal initSt 7 none 0).1.warnings
        = ["No ModalStack component mounted in current render tree"] ∧
    (createModal initSt 7 none 0).1.stack = [] ∧
    (createModal initSt 7 none 0).1.entries
        = [(genId 0, ⟨7, none, 0, none⟩)] := by
  decide

/-- Claim C3, counterexample: the claimed invariant "after each operation
the stack length equals the number of live registry entries" fails as
stated, at two explicit inputs: (1) a `createModal` call while no
controller is mounted stores a registry entry without pushing onto the
stack; (2) with a mounted controller, two creates whose pseudo-random
draws collide on the same identifier push the id twice onto the stack
while the registry keeps a single (overwritten) entry. -/
theorem stack_registry_claim_counterexample :
    (run initSt [Op.create 7 0]).stack.length
        ≠ (run initSt [Op.create 7 0]).entries.length ∧
    (run (mountedHook initSt 0) [Op.create 7 0, Op.create 7 0]).stack.length
        ≠ (run (mountedHook initSt 0) [Op.create 7 0, Op.create 7 0]).entries.length := by
  decide

/-- Claim C4 (settled as a code bug): the notification names are swapped
in the code. Evaluating the model: a `createModal` call emits nothing at
all; dismissing a modal emits `modalCreated` (plus the aggregate `modals`)
with the post-dismissal has-modals boolean; the first render of a freshly
created modal emits `modalDismissed` (plus `modals`). The claim — and the
plain meaning of the event names — requires "created" on creation and
"dismissed" on dismissal. -/
theorem emit_names_swapped :
    (createModal (mountedHook initSt 0) 1 none 1).1.events = [] ∧
    (onDismissModal (createModal (mountedHook initSt 0) 1 none 1).1 (genId 1) 0 "x").events
        = [("modalCreated", false), ("modals", false)] ∧
    ((renderOne (createModal (mountedHook initSt 0) 1 none 1).1 (genId 1)).map
        (fun p => p.2.events)).getD []
        = [("modalDismissed", true), ("modals", true)] := by
  decide

/-- Claim C5: the concrete scenario. With a mounted controller and an
initially empty state, creating modal A yields stack `[idA]`; creating
modal B yields `[idA, idB]`; dismissing `idA` with result "x" yields
`[idB]` and resolves A's promise (slot 0) with "x"; dismissing `idB` with
"y" yields `[]` and resolves B's promise (slot 1) with "y". -/
theorem scenario_two_modals :
    (createModal (mountedHook initSt 0) 1 none 1).1.stack = [genId 1] ∧
    (createModal (createModal (mountedHook initSt 0) 1 none 1).1 2 none 2).1.stack
        = [genId 1, genId 2] ∧
    (onDismissModal (createModal (createModal (mountedHook initSt 0) 1 none 1).1 2 none 2).1
        (genId 1) 0 "x").stack = [genId 2] ∧
    getIdx (onDismissModal (createModal (createModal (mountedHook initSt 0) 1 none 1).1 2 none 2).1
        (genId 1) 0 "x").promises 0 = some (.resolved "x") ∧
    (onDismissModal (onDismissModal (createModal (createModal (mountedHook initSt 0) 1 none 1).1
        2 none 2).1 (genId 1) 0 "x") (genId 2) 1 "y").stack = [] ∧
    getIdx (onDismissModal (onDismissModal (createModal (createModal (mountedHook initSt 0) 1
        none 1).1 2 none 2).1 (genId 1) 0 "x") (genId 2) 1 "y").promises 1
        = some (.resolved "y") := by
  decide

/-- Claim C2: for an identifier present in the stack and the registry
whose promise is still pending, dismissing it with result `r` resolves
exactly that promise with exactly `r`; firing the same dismissal closure a
second time (same id, same captured `resolve`) leaves the promise settled
with the first result — resolving a settled promise is a no-op. -/
theorem dismiss_resolves_exactly_once (s : St) (id r r2 : String) (e : ModalEntry)
    (_hmem : id ∈ s.stack)
    (_hent : getKey s.entries id = some e)
    (hpend : getIdx s.promises e.resolve = some .pending) :
    getIdx (onDismissModal s id e.resolve r).promises e.resolve
        = some (.resolved r) ∧
    getIdx (onDismissModal (onDismissModal s id e.resolve r) id e.resolve r2).promises
        e.resolve = some (.resolved r) := by
  have h1 : getIdx (onDismissModal s id e.resolve r).promises e.resolve
      = some (.resolved r) := by
    show getIdx (settle s.promises e.resolve (.resolved r)) e.resolve = _
    exact settle_getIdx_pending _ _ _ hpend
  refine ⟨h1, ?_⟩
  show getIdx (settle (onDismissModal s id e.resolve r).promises e.resolve
      (.resolved r2)) e.resolve = _
  rw [settle_of_resolved _ _ r _ h1]
  exact h1

theorem dismiss_resolves_exactly_once_witness :
    getIdx (onDismissModal (createModal (mountedHook initSt 0) 1 none 1).1
        (genId 1) 0 "x").promises 0 = some (.resolved "x") ∧
    getIdx (onDismissModal (onDismissModal (createModal (mountedHook initSt 0) 1 none 1).1
        (genId 1) 0 "x") (genId 1) 0 "z").promises 0 = some (.resolved "x") :=
  dismiss_resolves_exactly_once (createModal (mountedHook initSt 0) 1 none 1).1
    (genId 1) "x" "z" ⟨1, none, 0, none⟩ (by decide) (by decide) (by decide)

/-- Claim C6: for an identifier occurring at most once in the stack and
at most once among the registry keys (the uniqueness invariant the spec
states for active identifiers), immediately after `onDismissModal` the
identifier is present neither in the stack nor in the registry. -/
theorem dismissed_id_absent (s : St) (id : String) (pid : Nat) (r : String)
    (hstack : s.stack.count id ≤ 1)
    (hreg : (s.entries.map Prod.fst).count id ≤ 1) :
    id ∉ (onDismissModal s id pid r).stack ∧
    getKey (onDismissModal s id pid r).entries id = none := by
  constructor
  · show id ∉ removeFirst s.stack id
    exact removeFirst_not_mem _ _ hstack
  · show getKey (delKey s.entries id) id = none
    exact getKey_delKey_of_count _ _ hreg

theorem dismissed_id_absent_witness :
    (genId 1) ∉ (onDismissModal (createModal (mountedHook initSt 0) 1 none 1).1
        (genId 1) 0 "x").stack ∧
    getKey (onDismissModal (createModal (mountedHook initSt 0) 1 none 1).1
        (genId 1) 0 "x").entries (genId 1) = none :=
  dismissed_id_absent (createModal (mountedHook initSt 0) 1 none 1).1
    (genId 1) 0 "x" (by decide) (by decide)

/-- Claim C7: whatever node a presentation of entry `id` produced, a
repeated presentation of the same (not yet removed) entry returns the
identical cached node — the very same serial, not a reconstruction — and
leaves the state unchanged. -/
theorem renderOne_idempotent_cached (s s2 : St) (id : String) (v : VNodeM)
    (h : renderOne s id = some (v, s2)) : renderOne s2 id = some (v, s2) := by
  cases he : getKey s.entries id with
  | none =>
      simp only [renderOne, he] at h
      exact absurd h (by simp)
  | some e =>
      cases hv : e.vnode with
      | some w =>
          simp only [renderOne, he, hv, Option.some.injEq, Prod.mk.injEq] at h
          obtain ⟨rfl, rfl⟩ := h
          simp only [renderOne, he, hv]
      | none =>
          simp only [renderOne, he, hv, Option.some.injEq, Prod.mk.injEq] at h
          obtain ⟨h1, h2⟩ := h
          subst h1
          subst h2
          simp only [renderOne, getKey_setKey_self]

theorem renderOne_idempotent_cached_witness :
    renderOne ((renderOne (createModal (mountedHook initSt 0) 1 none 1).1 (genId 1)).getD
        (⟨0, ""⟩, initSt)).2 (genId 1)
      = some (⟨0, genId 1⟩,
          ((renderOne (createModal (mountedHook initSt 0) 1 none 1).1 (genId 1)).getD
            (⟨0, ""⟩, initSt)).2) :=
  renderOne_idempotent_cached (createModal (mountedHook initSt 0) 1 none 1).1
    ((renderOne (createModal (mountedHook initSt 0) 1 none 1).1 (genId 1)).getD
        (⟨0, ""⟩, initSt)).2 (genId 1) ⟨0, genId 1⟩ (by decide)

/-- Claim C8: for every possible draw `n` of the pseudo-random source,
the identifier generated by `createModal` is a string of exactly 8
characters, all of them lowercase hexadecimal digits. -/
theorem genId_eight_hex_chars (n : Nat) :
    (genId n).length = 8 ∧ (genIdChars n).all isHexChar = true :=
  ⟨genId_length n, genIdChars_all_hex n⟩

/-- Claim C9: mounting a second controller instance while one is already
registered issues exactly the multiple-mount warning and changes nothing
else — the registered instance stays in place and the hook (a total
function, faithful to source code containing no throw) completes
normally; no exception is raised. -/
theorem second_mount_warns_without_throwing (s : St) (i j : Nat)
    (h : s.modalStack = some j) :
    mountedHook s i =
      { s with warnings :=
          s.warnings ++ ["Vue modal stack component mounted multiple times"] } := by
  unfold mountedHook
  rw [h]

theorem second_mount_warns_witness :
    (mountedHook (mountedHook initSt 0) 1).warnings
      = ["Vue modal stack component mounted multiple times"] := by
  rw [second_mount_warns_without_throwing (mountedHook initSt 0) 1 0 rfl]
  rfl

/-- Claim C10: `beforeUnmount` clears the module-level reference exactly
when the unmounting instance is the registered one. Unmounting a
duplicate (never-registered) instance leaves the first mount registered
and `createModal` still pushes onto the stack; unmounting the registered
instance leaves the module unmounted, after which `createModal` rejects. -/
theorem beforeUnmount_clears_only_registered (s : St) (i : Nat) :
    ((beforeUnmountHook s i).modalStack
        = if s.modalStack = some i then none else s.modalStack) ∧
    (∀ j, s.modalStack = some j → i ≠ j →
        (beforeUnmountHook s i).modalStack = some j ∧
        ∀ c rnd, (createModal (beforeUnmountHook s i) c none rnd).1.stack
            = (beforeUnmountHook s i).stack ++ [genId rnd]) ∧
    (s.modalStack = some i →
        ∀ c rnd,
          getIdx (createModal (beforeUnmountHook s i) c none rnd).1.promises
              (createModal (beforeUnmountHook s i) c none rnd).2
            = some (.rejected "No ModalStack avaible")) := by
  refine ⟨?_, ?_, ?_⟩
  · unfold beforeUnmountHook
    by_cases h : s.modalStack = some i
    · simp [h]
    · simp [h]
  · intro j hj hij
    have hne : ¬ s.modalStack = some i := by
      intro hc
      rw [hj] at hc
      exact hij (Option.some.inj hc).symm
    have hb : beforeUnmountHook s i = s := by
      unfold beforeUnmountHook; rw [if_neg hne]
    rw [hb]
    exact ⟨hj, fun c rnd => createModal_mounted_stack s c none rnd j hj⟩
  · intro hi c rnd
    have hb : (beforeUnmountHook s i).modalStack = none := by
      unfold beforeUnmountHook; rw [if_pos hi]
    exact createModal_rejects_unmounted _ c none rnd hb

theorem beforeUnmount_clears_only_registered_witness :
    (beforeUnmountHook (mountedHook (mountedHook initSt 0) 1) 1).modalStack = some 0 :=
  (((beforeUnmount_clears_only_registered (mountedHook (mountedHook initSt 0) 1) 1).2.1)
    0 (by decide) (by decide)).1

/-- Claim C3 as amended: for every sequence of create/dismiss operations
in which each create happens while a controller is mounted and with a
fresh identifier (the spec's uniqueness invariant), starting from any
state whose stack lists exactly the registry keys (in particular the
empty state), the stack length equals the number of registry entries
after the sequence — hence after every operation, every prefix of a good
trace being a good trace. -/
theorem stack_length_eq_registry_size (s : St) (ops : List Op)
    (hinv : s.stack = s.entries.map Prod.fst) (hg : GoodTrace s ops) :
    (run s ops).stack.length = (run s ops).entries.length := by
  rw [run_preserves_inv s ops hg hinv, List.length_map]

theorem stack_length_eq_registry_size_witness :
    (run (mountedHook initSt 0) [Op.create 1 1, Op.dismiss (genId 1) 0 "x"]).stack.length
      = (run (mountedHook initSt 0) [Op.create 1 1, Op.dismiss (genId 1) 0 "x"]).entries.length :=
  stack_length_eq_registry_size (mountedHook initSt 0) _ (by decide)
    (GoodTrace.cons (by exact ⟨rfl, rfl⟩) (GoodTrace.cons trivial GoodTrace.nil))
